import Mathlib

/-!
Verification of the AulaMetrics Odoo module against its specification.

This file shallowly embeds the parts of the source that the checked claims
are about: the scoring engine (src/models/survey_scoring_strategies.py,
src/models/survey_config.py, src/models/survey_extension.py), the alert
engine (src/models/alert.py, src/models/threshold.py), the evaluation and
participation life cycle (src/models/evaluation.py,
src/models/participation.py), the dashboard HTTP controller
(src/controllers/dashboard_controller.py,
src/models/dashboard_student_profile.py), the qualitative-response capture
(src/models/survey_user_input.py, src/models/qualitative_response.py) and
the alert-keyword registry (src/models/qualitative_response.py).

Modelling conventions:
- Python floats are modelled by Lean rationals.  Every arithmetic operation
  the claims exercise (sums, counts, divisions by small integers,
  multiplications by 100) is exact in IEEE double precision on the inputs
  involved, so the rational model agrees with the Python float result.
- Odoo recordsets are modelled by explicit lists of structures; a search is
  a filter over such a list; record creation appends to the list.
- Python exceptions are modelled by Except / explicit result types where a
  claim depends on them.
-/

namespace AulaMetrics

/-! ## Survey data model (host survey runtime records used by the scoring engine) -/

/-- One survey.question record: only the attributes the scoring engine reads. -/
structure Question where
  id : Nat
  question_type : String
  sequence : Nat
  title : String := ""
  deriving DecidableEq

/-- One survey.user_input.line record.  suggested_answer_sequence is
suggested_answer_id.sequence when an option is selected (none models a line
without suggested_answer_id); suggested_answer_value is
suggested_answer_id.value. -/
structure InputLine where
  question_id : Nat
  suggested_answer_sequence : Option Nat := none
  suggested_answer_value : Option String := none
  value_char_box : Option String := none
  value_text_box : Option String := none
  deriving DecidableEq

/-- One survey.user_input record (a completed response). -/
structure UserInput where
  user_input_line_ids : List InputLine
  deriving DecidableEq

/-- One survey.survey record with the AulaMetrics extension fields
(survey_extension.py).  survey_code none models an unset Char field; the
empty string is also falsy in the dispatch test of calculate_scores. -/
structure Survey where
  id : Nat
  is_aulametrics : Bool := false
  is_adhoc : Bool := false
  survey_code : Option String := none
  question_ids : List Question := []
  deriving DecidableEq

/-- One metric descriptor as returned by the scoring strategies
(survey_scoring_strategies.py): a dict with metric_name, metric_label and
exactly one populated value slot. -/
structure Metric where
  metric_name : String
  metric_label : String
  value_float : Option ℚ := none
  value_text : Option String := none
  question_id : Option Nat := none
  deriving DecidableEq

/-- Stable insertion of a question into a list already sorted by sequence:
an element is placed before the first element with a strictly larger key,
so elements with equal keys keep their original relative order, matching
Python sorted(key=lambda q: q.sequence). -/
def insertBySequence (q : Question) : List Question → List Question
  | [] => [q]
  | r :: rs => if q.sequence ≤ r.sequence then q :: r :: rs else r :: insertBySequence q rs

/-- Python sorted(questions, key=lambda q: q.sequence) (stable). -/
def sortBySequence (qs : List Question) : List Question :=
  qs.foldr insertBySequence []

/-- survey.question_ids.filtered(lambda q: q.question_type == "matrix")
.sorted(key=lambda q: q.sequence), as used by every subscale strategy. -/
def matrixQuestions (s : Survey) : List Question :=
  sortBySequence (s.question_ids.filter (fun q => q.question_type = "matrix"))

/-! ## Scoring configuration (survey_config.py, SURVEY_SCORING_CONFIGS) -/

/-- The value of a subscale config "questions" key: the string "all_matrix"
or an integer index into the sorted matrix-question list. -/
inductive QuestionsSel
  | allMatrix
  | byIndex (idx : Nat)
  deriving DecidableEq

/-- One subscale configuration dict: either a base subscale with a question
selector and an expected item count, or a combined subscale listing the
sibling subscales it averages.  The source dicts carry no "label" key, so
metric_label falls back to the subscale name
(subscale_config.get("label", subscale_name)). -/
inductive SubscaleCfg
  | base (sel : QuestionsSel) (items : Nat)
  | combine (subs : List String)
  deriving DecidableEq

/-- One entry of SURVEY_SCORING_CONFIGS: max_sequence and the ordered
subscales dict (Python dicts iterate in insertion order). -/
structure ScoringConfig where
  max_sequence : Nat
  subscales : List (String × SubscaleCfg)
  deriving DecidableEq

/-- SURVEY_SCORING_CONFIGS["WHO5"] (survey_config.py lines 52-57). -/
def WHO5_CONFIG : ScoringConfig :=
  { max_sequence := 5
    subscales := [("who5_score", .base .allMatrix 5)] }

/-- SURVEY_SCORING_CONFIGS["BULLYING_VA"] (survey_config.py lines 58-65). -/
def BULLYING_VA_CONFIG : ScoringConfig :=
  { max_sequence := 4
    subscales :=
      [ ("victimization_score", .base (.byIndex 0) 7)
      , ("aggression_score", .base (.byIndex 1) 7)
      , ("bullying_score", .combine ["victimization_score", "aggression_score"]) ] }

/-- SURVEY_SCORING_CONFIGS["ASQ14"] (survey_config.py lines 66-71). -/
def ASQ14_CONFIG : ScoringConfig :=
  { max_sequence := 4
    subscales := [("stress_score", .base .allMatrix 14)] }

/-! ## Scoring strategies (survey_scoring_strategies.py) -/

/-- The normalized values of the answered rows of the given questions: for
every line of the user input belonging to one of the questions and carrying
a suggested answer, (sequence / max_sequence) * 100, in question order then
line order — exactly the accumulation order of the nested for-loops of the
strategies (total_score is the sum of this list and item_count its
length). -/
def subscaleValues (ui : UserInput) (qs : List Question) (maxSeq : Nat) : List ℚ :=
  qs.flatMap (fun q =>
    (ui.user_input_line_ids.filter (fun l => l.question_id = q.id)).filterMap
      (fun l => l.suggested_answer_sequence.map
        (fun sq => ((sq : ℚ) / (maxSeq : ℚ)) * 100)))

/-- The body of the per-subscale loop shared by Who5Scoring and
BullyingVAScoring: emit the mean when the answered item count equals the
configured item count, nothing otherwise (partial completion yields no
metric).  The configured item counts are 5, 7 and 14, all nonzero, so the
division is never 0/0. -/
def baseScore (ui : UserInput) (qs : List Question) (maxSeq items : Nat) : Option ℚ :=
  let vals := subscaleValues ui qs maxSeq
  if vals.length = items then some (vals.sum / (vals.length : ℚ)) else none

/-- Who5Scoring._calculate_normalized_scores (lines 38-76): for each
configured subscale, the questions are all matrix questions when the
selector is "all_matrix" and the empty list otherwise; a metric is appended
when the answered item count matches.  The WHO5 and ASQ14 configs contain
no combined subscales, so the combine case never contributes. -/
def who5Calculate (s : Survey) (cfg : ScoringConfig) (ui : UserInput) : List Metric :=
  cfg.subscales.foldl
    (fun metrics item =>
      match item.2 with
      | .base sel items =>
        let qs := match sel with
          | .allMatrix => matrixQuestions s
          | .byIndex _ => []
        match baseScore ui qs cfg.max_sequence items with
        | some v => metrics ++ [{ metric_name := item.1, metric_label := item.1, value_float := some v }]
        | none => metrics
      | .combine _ => metrics)
    []

/-- The stable sort of BullyingVAScoring.calculate line 92:
subscale_items.sort(key=lambda x: 1 if "combine" in x[1] else 0) keeps the
base subscales first and the combined ones last, each in insertion order. -/
def sortSubscalesCombineLast (l : List (String × SubscaleCfg)) : List (String × SubscaleCfg) :=
  l.filter (fun it => match it.2 with | .combine _ => false | _ => true)
    ++ l.filter (fun it => match it.2 with | .combine _ => true | _ => false)

/-- matrix_questions[idx:idx+1] if idx < len(matrix_questions) else []
(BullyingVAScoring.calculate line 112).  The BULLYING_VA config gives every
base subscale an integer index; an "all_matrix" string there would raise a
TypeError at the comparison, so that case is modelled as unreachable. -/
def sliceOne (qs : List Question) (idx : Nat) : List Question :=
  if idx < qs.length then qs.drop idx |>.take 1 else []

/-- One step of the BullyingVAScoring.calculate loop (lines 94-136).  The
accumulator carries the temporary scores dict and the metric list. -/
def bullyingStep (s : Survey) (cfg : ScoringConfig) (ui : UserInput)
    (acc : List (String × ℚ) × List Metric) (item : String × SubscaleCfg) :
    List (String × ℚ) × List Metric :=
  match item.2 with
  | .combine subs =>
    let combined := subs.filterMap (fun n => (acc.1.find? (fun p => p.1 = n)).map Prod.snd)
    if combined = [] then acc
    else
      let v := combined.sum / (combined.length : ℚ)
      (acc.1 ++ [(item.1, v)],
       acc.2 ++ [{ metric_name := item.1, metric_label := item.1, value_float := some v }])
  | .base sel items =>
    let qs := match sel with
      | .byIndex idx => sliceOne (matrixQuestions s) idx
      | .allMatrix => []
    match baseScore ui qs cfg.max_sequence items with
    | some v =>
      (acc.1 ++ [(item.1, v)],
       acc.2 ++ [{ metric_name := item.1, metric_label := item.1, value_float := some v }])
    | none => acc

/-- BullyingVAScoring.calculate (lines 81-138). -/
def bullyingCalculate (s : Survey) (cfg : ScoringConfig) (ui : UserInput) : List Metric :=
  ((sortSubscalesCombineLast cfg.subscales).foldl (bullyingStep s cfg ui) ([], [])).2

/-- GenericAdHocScoring.calculate (lines 151-198): one metric per answered
line, named from the question id. -/
def adhocCalculate (s : Survey) (cfg : Option ScoringConfig) (ui : UserInput) : List Metric :=
  ui.user_input_line_ids.foldl
    (fun metrics l =>
      match s.question_ids.find? (fun q => q.id = l.question_id) with
      | none => metrics
      | some q =>
        let metricName := "adhoc_q" ++ toString q.id
        let metricLabel := if q.title ≠ "" then q.title.take 100 else "Pregunta " ++ toString q.sequence
        if q.question_type = "simple_choice" ∨ q.question_type = "multiple_choice" then
          match l.suggested_answer_value with
          | some v => metrics ++ [{ metric_name := metricName, metric_label := metricLabel,
                                    value_text := some v, question_id := some q.id }]
          | none => metrics
        else if q.question_type = "matrix" then
          match l.suggested_answer_sequence, cfg with
          | some sq, some c =>
            if c.max_sequence ≠ 0 then
              metrics ++ [{ metric_name := metricName, metric_label := metricLabel,
                            value_float := some (((sq : ℚ) / (c.max_sequence : ℚ)) * 100),
                            value_text := l.suggested_answer_value, question_id := some q.id }]
            else metrics
          | _, _ => metrics
        else if q.question_type = "char_box" ∨ q.question_type = "text_box" then
          match l.value_char_box.filter (· ≠ "") |>.orElse (fun _ => l.value_text_box.filter (· ≠ "")) with
          | some t => metrics ++ [{ metric_name := metricName, metric_label := metricLabel,
                                    value_text := some t, question_id := some q.id }]
          | none => metrics
        else metrics)
    []

/-! ## Strategy dispatch (survey_extension.py, calculate_scores) -/

/-- The strategy classes registered in SCORING_STRATEGIES
(survey_scoring_strategies.py lines 201-206).  Asq14Scoring inherits the
Who5Scoring logic unchanged. -/
inductive StrategyKind
  | who5
  | bullyingVA
  | asq14
  | adhoc
  deriving DecidableEq

/-- SCORING_STRATEGIES.get(key). -/
def SCORING_STRATEGIES (key : String) : Option StrategyKind :=
  if key = "WHO5" then some .who5
  else if key = "BULLYING_VA" then some .bullyingVA
  else if key = "ASQ14" then some .asq14
  else if key = "ADHOC" then some .adhoc
  else none

/-- A successfully constructed strategy object: BaseSurveyScoring.__init__
stores the survey and the config (survey_scoring_strategies.py lines 11-13). -/
structure ScoringInstance where
  survey : Survey
  config : ScoringConfig
  deriving DecidableEq

/-- The result of a Python call: a value, or a raised TypeError. -/
inductive PyCallResult (α : Type)
  | ok (a : α)
  | typeError
  deriving DecidableEq

/-- A Python call of a scoring class.  BaseSurveyScoring.__init__
(survey_scoring_strategies.py line 11) declares two required positional
parameters, survey and config; a call that does not supply the config
argument (modelled as none) raises TypeError before the constructor body
runs. -/
def instantiateScoring (survey : Survey) (config : Option ScoringConfig) :
    PyCallResult ScoringInstance :=
  match config with
  | some cfg => .ok { survey := survey, config := cfg }
  | none => .typeError

/-- Dispatch of instance.calculate(user_input) on the strategy class. -/
def strategyCalculate (k : StrategyKind) (inst : ScoringInstance) (ui : UserInput) : List Metric :=
  match k with
  | .who5 => who5Calculate inst.survey inst.config ui
  | .asq14 => who5Calculate inst.survey inst.config ui
  | .bullyingVA => bullyingCalculate inst.survey inst.config ui
  | .adhoc => adhocCalculate inst.survey (some inst.config) ui

/-- survey_extension.py calculate_scores (lines 234-261).  The dispatch
site reads scoring_class(self): only the survey is passed, the config
argument is omitted, so instantiation raises TypeError, which the blanket
except Exception handler turns into an empty metric list. -/
def calculate_scores (s : Survey) (user_input : Option UserInput) : List Metric :=
  match user_input with
  | none => []
  | some ui =>
    let strategy_key : Option String :=
      if s.is_adhoc then some "ADHOC"
      else
        match s.survey_code with
        | some code => if code = "" then none else some code
        | none => none
    match strategy_key with
    | none => []
    | some key =>
      match SCORING_STRATEGIES key with
      | none => []
      | some strat =>
        match instantiateScoring s none with
        | .typeError => []
        | .ok inst => strategyCalculate strat inst ui

/-! ## Concrete WHO-5 fixtures for claim C1 -/

/-- The seeded WHO-5 survey: 5 matrix items (survey metadata only; answer
options have ordinal sequences 0 through 5, max_sequence 5). -/
def who5Survey : Survey :=
  { id := 1
    is_aulametrics := true
    survey_code := some "WHO5"
    question_ids :=
      [ { id := 11, question_type := "matrix", sequence := 1 }
      , { id := 12, question_type := "matrix", sequence := 2 }
      , { id := 13, question_type := "matrix", sequence := 3 }
      , { id := 14, question_type := "matrix", sequence := 4 }
      , { id := 15, question_type := "matrix", sequence := 5 } ] }

/-- A completed WHO-5 response with all 5 items answered at the maximum
ordinal position (sequence 5 of max_sequence 5). -/
def who5MaxInput : UserInput :=
  { user_input_line_ids :=
      [ { question_id := 11, suggested_answer_sequence := some 5 }
      , { question_id := 12, suggested_answer_sequence := some 5 }
      , { question_id := 13, suggested_answer_sequence := some 5 }
      , { question_id := 14, suggested_answer_sequence := some 5 }
      , { question_id := 15, suggested_answer_sequence := some 5 } ] }

/-- A WHO-5 response with only 4 of the 5 items answered. -/
def who5FourInput : UserInput :=
  { user_input_line_ids :=
      [ { question_id := 11, suggested_answer_sequence := some 5 }
      , { question_id := 12, suggested_answer_sequence := some 5 }
      , { question_id := 13, suggested_answer_sequence := some 5 }
      , { question_id := 14, suggested_answer_sequence := some 5 } ] }

/-! ## Bullying-VA fixtures and helpers for claim C3 -/

/-- The first metric with the given name, with its numeric value — how a
reader extracts one named score from a strategy result list. -/
def findMetricFloat (ms : List Metric) (name : String) : Option ℚ :=
  (ms.find? (fun m => m.metric_name = name)).bind (fun m => m.value_float)

/-- The victimization block result of one BullyingVAScoring pass: the base
subscale computation for config entry ("victimization_score",
questions index 0, items 7, max_sequence 4). -/
def victimizationScore (s : Survey) (ui : UserInput) : Option ℚ :=
  baseScore ui (sliceOne (matrixQuestions s) 0) 4 7

/-- The aggression block result of one BullyingVAScoring pass (config entry
with questions index 1, items 7, max_sequence 4). -/
def aggressionScore (s : Survey) (ui : UserInput) : Option ℚ :=
  baseScore ui (sliceOne (matrixQuestions s) 1) 4 7

/-- The seeded Bullying-VA survey: two 7-row matrix blocks (victimization
first, aggression second), answer ordinals 0 through 4. -/
def bullyingSurvey : Survey :=
  { id := 2
    is_aulametrics := true
    survey_code := some "BULLYING_VA"
    question_ids :=
      [ { id := 21, question_type := "matrix", sequence := 1 }
      , { id := 22, question_type := "matrix", sequence := 2 } ] }

/-- A response answering only the victimization block: all 7 rows at
ordinal 1 of 4, so the block mean is 25.0; the aggression block is left
unanswered. -/
def bullyingOneBlockInput : UserInput :=
  { user_input_line_ids :=
      [ { question_id := 21, suggested_answer_sequence := some 1 }
      , { question_id := 21, suggested_answer_sequence := some 1 }
      , { question_id := 21, suggested_answer_sequence := some 1 }
      , { question_id := 21, suggested_answer_sequence := some 1 }
      , { question_id := 21, suggested_answer_sequence := some 1 }
      , { question_id := 21, suggested_answer_sequence := some 1 }
      , { question_id := 21, suggested_answer_sequence := some 1 } ] }

/-- A response answering both blocks completely: victimization rows all at
ordinal 1 (mean 25.0), aggression rows all at ordinal 2 (mean 50.0). -/
def bullyingTwoBlockInput : UserInput :=
  { user_input_line_ids :=
      [ { question_id := 21, suggested_answer_sequence := some 1 }
      , { question_id := 21, suggested_answer_sequence := some 1 }
      , { question_id := 21, suggested_answer_sequence := some 1 }
      , { question_id := 21, suggested_answer_sequence := some 1 }
      , { question_id := 21, suggested_answer_sequence := some 1 }
      , { question_id := 21, suggested_answer_sequence := some 1 }
      , { question_id := 21, suggested_answer_sequence := some 1 }
      , { question_id := 22, suggested_answer_sequence := some 2 }
      , { question_id := 22, suggested_answer_sequence := some 2 }
      , { question_id := 22, suggested_answer_sequence := some 2 }
      , { question_id := 22, suggested_answer_sequence := some 2 }
      , { question_id := 22, suggested_answer_sequence := some 2 }
      , { question_id := 22, suggested_answer_sequence := some 2 }
      , { question_id := 22, suggested_answer_sequence := some 2 } ] }

/-! ## Evaluation and participation life cycle (evaluation.py, participation.py) -/

/-- Evaluation states (evaluation.py lines 100-106). -/
inductive EvalState
  | draft
  | scheduled
  | activeState
  | closed
  | cancelled
  deriving DecidableEq

/-- Participation states (participation.py lines 54-58). -/
inductive PartState
  | pending
  | completed
  | expired
  deriving DecidableEq

/-- One aulametrics.academic_group record (academic_group.py): the fields
the claims read.  student_count is the stored compute len(student_ids). -/
structure AcademicGroup where
  id : Nat
  student_ids : List Nat := []
  student_count : Nat := 0
  tutor_id : Option Nat := none
  deriving DecidableEq

/-- One aulametrics.evaluation record: the fields the claims read.  The
academic groups are inlined records (the many2many target rows). -/
structure Evaluation where
  id : Nat
  survey_ids : List Nat := []
  academic_group_ids : List AcademicGroup := []
  state : EvalState := .draft
  deriving DecidableEq

/-- One aulametrics.participation record. -/
structure Participation where
  id : Nat := 0
  evaluation_id : Nat
  student_id : Nat
  state : PartState := .pending
  deriving DecidableEq

/-- The Bool form of the search domain of _create_participations:
[("evaluation_id", "=", eid), ("student_id", "=", sid)]. -/
def participationMatch (eid sid : Nat) (p : Participation) : Bool :=
  p.evaluation_id == eid && p.student_id == sid

/-- One iteration of the student loop of _create_participations
(evaluation.py lines 389-401): search the participation store for an
existing row of this evaluation and student (the search also sees rows
created earlier in the same run), and create a pending row only when none
exists. -/
def addParticipation (eid : Nat) (store : List Participation) (sid : Nat) : List Participation :=
  if store.any (participationMatch eid sid) then store
  else store ++ [{ evaluation_id := eid, student_id := sid, state := .pending }]

/-- _create_participations (evaluation.py lines 385-401): the nested
for-loops over the assigned groups and their students. -/
def createParticipations (e : Evaluation) (store : List Participation) : List Participation :=
  e.academic_group_ids.foldl (fun acc g => g.student_ids.foldl (addParticipation e.id) acc) store

/-- action_schedule (evaluation.py lines 204-213): raises ValidationError
when no survey or no academic group is assigned — the raise aborts the
transaction, so neither the state change nor any participation creation
happens; otherwise sets state scheduled and materializes the
participations. -/
def action_schedule (e : Evaluation) (store : List Participation) :
    Except String (Evaluation × List Participation) :=
  if e.survey_ids = [] then .error "Debe asignar al menos un cuestionario."
  else if e.academic_group_ids = [] then .error "Debe asignar al menos un grupo académico."
  else .ok ({ e with state := .scheduled }, createParticipations e store)

/-- action_expire (participation.py lines 186-190) on one record: pending
rows become expired, others are untouched. -/
def actionExpireOne (p : Participation) : Participation :=
  if p.state = .pending then { p with state := .expired } else p

/-- action_close (evaluation.py lines 370-375): set the state to closed,
then run action_expire on every still-pending participation of the
evaluation (participation_ids are the store rows with this
evaluation_id). -/
def action_close (e : Evaluation) (store : List Participation) :
    Evaluation × List Participation :=
  ({ e with state := .closed },
   store.map (fun p =>
     if p.evaluation_id = e.id ∧ p.state = .pending then actionExpireOne p else p))

/-- The number of participation rows of one (evaluation, student) pair —
the quantity the uniqueness invariant of participation.py lines 76-80
bounds by 1. -/
def pairCount (store : List Participation) (eid sid : Nat) : Nat :=
  (store.filter (participationMatch eid sid)).length

/-! ## Alert engine (alert.py, threshold.py, metric_value.py) -/

/-- Alert statuses (alert.py lines 16-20); the field default is active. -/
inductive AlertStatus
  | active
  | resolved
  | dismissed
  deriving DecidableEq

/-- Alert levels (alert.py lines 22-25); the field default is individual. -/
inductive AlertLevel
  | individual
  | group
  deriving DecidableEq

/-- One aulametrics.threshold record (threshold.py).  The model declares
name, score_field, threshold_value, operator, active, alert_message,
severity and group_threshold_percentage — and no survey_id field, although
alert.py filters its threshold searches on one. -/
structure Threshold where
  id : Nat
  score_field : String
  threshold_value : ℚ
  operator : String := ">"
  active : Bool := true
  group_threshold_percentage : ℚ := 25
  deriving DecidableEq

/-- One aulametrics.alert record: the fields the alert engine reads and
writes.  Unset many2one fields are none. -/
structure Alert where
  threshold_id : Nat
  participation_id : Option Nat := none
  student_id : Option Nat := none
  academic_group_id : Option Nat := none
  score_value : ℚ
  status : AlertStatus := .active
  alert_level : AlertLevel := .individual
  deriving DecidableEq

/-- One aulametrics.metric_value record: the fields get_metric_value
reads. -/
structure MetricValue where
  survey_id : Nat
  student_id : Nat
  evaluation_id : Nat
  metric_name : String
  value_float : ℚ := 0
  deriving DecidableEq

/-- participation.get_metric_value (participation.py lines 102-113): the
first stored metric row of this student, evaluation and metric name, or
none. -/
def get_metric_value (mstore : List MetricValue) (p : Participation)
    (metric_name : String) : Option ℚ :=
  (mstore.find? (fun m => m.student_id == p.student_id
      && m.evaluation_id == p.evaluation_id
      && m.metric_name == metric_name)).map (fun m => m.value_float)

/-- The attribute names defined on the aulametrics.participation model
(participation.py: its fields and methods, plus standard ORM record
attributes), used to model Python getattr lookups against a participation
record. -/
def participationAttrNames : List String :=
  [ "id", "evaluation_id", "student_id", "academic_group_id", "student_gender"
  , "evaluation_token", "state", "completed_at", "metric_value_ids"
  , "create", "get_metric_value", "get_all_metrics", "action_complete"
  , "check_alerts", "action_expire"
  , "display_name", "create_date", "create_uid", "write_date", "write_uid"
  , "env", "ids"]

/-- getattr(participation, name, 0) as used at alert.py line 64.  When the
participation model defines no attribute of that name, Python returns the
default 0.  When the name is a defined attribute, the value is a recordset,
string, datetime or bound method — never a numeric score — and the later
float comparison would raise TypeError; that branch is therefore modelled
as an error and shown unreachable for every selectable score_field. -/
def getattrParticipationScore (name : String) (dflt : ℚ) : Except String ℚ :=
  if participationAttrNames.contains name then .error "attribute is not a numeric score"
  else .ok dflt

/-- Threshold.score_field is restricted by its selection
(threshold._get_score_field_options, threshold.py lines 19-43) to a survey
code of an official instrument or, for ad hoc questionnaires, a
"survey_<id>" string.  The claims concern thresholds on the official
instruments, whose codes are exactly these three; none of them (nor any
"survey_<id>" string) names a participation attribute. -/
def validScoreField (name : String) : Prop :=
  name = "WHO5" ∨ name = "BULLYING_VA" ∨ name = "ASQ14"

/-- _create_alert (alert.py lines 162-184): search for an existing alert of
this threshold and level for this participation (individual) or this group
(group level) — the search does not filter on status — and create one only
when none exists.  gid stands for
participation.student_id.academic_group_id.id. -/
def createAlert (alerts : List Alert) (p : Participation) (gid : Nat) (t : Threshold)
    (score : ℚ) (level : AlertLevel) : List Alert :=
  let domainMatch := fun (a : Alert) =>
    a.threshold_id == t.id && a.alert_level == level &&
      (match level with
       | .individual => a.participation_id == some p.id
       | .group => a.academic_group_id == some gid)
  if alerts.filter domainMatch = [] then
    alerts ++
      [match level with
       | .individual =>
         { threshold_id := t.id, score_value := score, alert_level := level,
           participation_id := some p.id, student_id := some p.student_id,
           academic_group_id := some gid }
       | .group =>
         { threshold_id := t.id, score_value := score, alert_level := level,
           academic_group_id := some gid }]
  else alerts

/-- The per-threshold body of check_alerts_for_participation (alert.py
lines 62-77): read the score with getattr(participation,
threshold.score_field, 0), skip falsy scores (a float is falsy exactly at
0.0), then compare with the configured operator and create an individual
alert on breach. -/
def checkIndividualForThreshold (alerts : List Alert) (p : Participation) (gid : Nat)
    (t : Threshold) : List Alert :=
  match getattrParticipationScore t.score_field 0 with
  | .error _ => alerts
  | .ok score_value =>
    if score_value = 0 then alerts
    else
      if (t.operator = ">" ∧ score_value > t.threshold_value)
          ∨ (t.operator = "<" ∧ score_value < t.threshold_value) then
        createAlert alerts p gid t score_value .individual
      else alerts

/-- The Bool form of the active-individual-alert search domain of one
(threshold, group) pair (alert.py lines 88-93 and 130-135). -/
def activeIndividualMatch (tid gid : Nat) (a : Alert) : Bool :=
  a.threshold_id == tid && a.academic_group_id == some gid
    && a.status == AlertStatus.active && a.alert_level == AlertLevel.individual

/-- search_count of active individual alerts of one (threshold, group)
pair. -/
def activeIndividualCount (alerts : List Alert) (tid gid : Nat) : Nat :=
  (alerts.filter (activeIndividualMatch tid gid)).length

/-- The Bool form of the existing-active-group-alert search domain
(alert.py lines 103-108 and 148-153). -/
def activeGroupMatch (tid gid : Nat) (a : Alert) : Bool :=
  a.threshold_id == tid && a.academic_group_id == some gid
    && a.alert_level == AlertLevel.group && a.status == AlertStatus.active

/-- The number of active group-level alerts of one (threshold, group)
pair — the quantity the at-most-one invariant bounds. -/
def activeGroupCount (alerts : List Alert) (tid gid : Nat) : Nat :=
  (alerts.filter (activeGroupMatch tid gid)).length

/-- _check_group_alert (alert.py lines 82-116): skip when the group
percentage is falsy (0.0) or the group is empty; otherwise compare the
share of students with an active individual alert against the configured
percentage and create one group alert when it is reached and none is
already active. -/
def checkGroupAlert (alerts : List Alert) (t : Threshold) (g : AcademicGroup) : List Alert :=
  if t.group_threshold_percentage = 0 then alerts
  else
    let active_alerts := activeIndividualCount alerts t.id g.id
    let total_students := if g.student_count ≠ 0 then g.student_count else g.student_ids.length
    if total_students = 0 then alerts
    else
      let percentage := ((active_alerts : ℚ) / (total_students : ℚ)) * 100
      if percentage ≥ t.group_threshold_percentage then
        if alerts.filter (activeGroupMatch t.id g.id) = [] then
          alerts ++ [{ threshold_id := t.id, academic_group_id := some g.id,
                       score_value := percentage, alert_level := .group }]
        else alerts
      else alerts

/-- The loop body of _check_all_group_alerts (alert.py lines 143-160): the
count of active individual alerts comes from the entry store (read_group
was run before the loop), while the existing-group-alert search sees rows
created earlier in the same loop (the accumulator). -/
def groupAlertStep (entryAlerts : List Alert) (g : AcademicGroup) (total_students : Nat)
    (acc : List Alert) (t : Threshold) : List Alert :=
  let percentage := ((activeIndividualCount entryAlerts t.id g.id : ℚ)
    / (total_students : ℚ)) * 100
  if percentage ≥ t.group_threshold_percentage then
    if acc.filter (activeGroupMatch t.id g.id) = [] then
      acc ++ [{ threshold_id := t.id, academic_group_id := some g.id,
                score_value := percentage, alert_level := .group }]
    else acc
  else acc

/-- _check_all_group_alerts (alert.py lines 118-160).  The threshold search
filters on active, group_threshold_percentage > 0 and on a survey_id field
that threshold.py never defines; the searched list is therefore taken as a
parameter (whatever the search would return) and filtered by the two
well-defined conditions. -/
def checkAllGroupAlerts (alerts : List Alert) (g : AcademicGroup)
    (thresholds : List Threshold) : List Alert :=
  let ts := thresholds.filter (fun t => t.active && decide (t.group_threshold_percentage > 0))
  if ts = [] then alerts
  else
    let total_students := if g.student_count ≠ 0 then g.student_count else g.student_ids.length
    if total_students = 0 then alerts
    else ts.foldl (groupAlertStep alerts g total_students) alerts

/-- check_alerts_for_participation (alert.py lines 50-80): the individual
check for every active threshold, then the group-alert recomputation.  The
threshold search of lines 57-60 also filters on the undefined survey_id
field, so the candidate list is a parameter; g stands for
participation.student_id.academic_group_id. -/
def check_alerts_for_participation (alerts : List Alert) (p : Participation)
    (g : AcademicGroup) (thresholds : List Threshold) : List Alert :=
  let afterIndividual :=
    (thresholds.filter (fun t => t.active)).foldl
      (fun acc t => checkIndividualForThreshold acc p g.id t) alerts
  checkAllGroupAlerts afterIndividual g thresholds

/-! ## Concrete fixtures for claim C2 -/

/-- An active threshold "metric greater than 40" on the WHO-5 instrument,
with the default 25 percent group percentage. -/
def c2Threshold : Threshold :=
  { id := 7, score_field := "WHO5", threshold_value := 40, operator := ">",
    active := true, group_threshold_percentage := 25 }

/-- The participation of student 100 in evaluation 10. -/
def c2Participation : Participation :=
  { id := 1, evaluation_id := 10, student_id := 100 }

/-- The academic group of student 100 (8 students). -/
def c2Group : AcademicGroup :=
  { id := 5, student_ids := [100, 101, 102, 103, 104, 105, 106, 107], student_count := 8 }

/-- A metric store holding the value 55.0 for the metric named by the
threshold's score_field for this participation. -/
def c2MetricStore : List MetricValue :=
  [{ survey_id := 1, student_id := 100, evaluation_id := 10,
     metric_name := "WHO5", value_float := 55 }]

/-! ## Dashboard HTTP controller (dashboard_controller.py,
dashboard_student_profile.py) -/

/-- The detected role of the logged-in user (_detect_user_role, priority
admin then counselor then management, default tutor). -/
inductive Role
  | admin
  | counselor
  | management
  | tutor
  deriving DecidableEq

/-- The role_info dict the controller threads down: the detected role, the
tutor's allowed group ids and the management anonymization flag. -/
structure RoleInfo where
  role : Role
  allowed_group_ids : List Nat := []
  anonymize_students : Bool := false
  deriving DecidableEq

/-- _detect_user_role (dashboard_controller.py lines 10-59): group checks
in priority order; only the plain tutor role gets its assigned groups as
allowed_group_ids; management gets anonymize_students. -/
def detectUserRole (hasAdminGroup hasCounselorGroup hasManagementGroup : Bool)
    (tutorGroupIds : List Nat) : RoleInfo :=
  if hasAdminGroup then { role := .admin }
  else if hasCounselorGroup then { role := .counselor }
  else if hasManagementGroup then { role := .management, anonymize_students := true }
  else { role := .tutor, allowed_group_ids := tutorGroupIds }

/-- One res.partner record as the student routes read it: is_student is
derived as bool(academic_group_id) (res_partner.py lines 46-49). -/
structure StudentRec where
  id : Nat
  academic_group_id : Option Nat := none
  deriving DecidableEq

/-- The derived is_student flag. -/
def isStudent (st : StudentRec) : Bool :=
  st.academic_group_id.isSome

/-- The body kinds a student-route response can carry; the fully rendered
pages are abstracted to tags since the claims only distinguish error pages
from content. -/
inductive ResponseBody
  | accessDeniedPage
  | studentsListPage
  | notFoundPage
  | errorPage (message : String)
  | emptyProfilePage
  | profilePage
  deriving DecidableEq

/-- An HTTP response: status code and body.  request.make_response without
an explicit status returns 200. -/
structure HttpResponse where
  status : Nat
  body : ResponseBody
  deriving DecidableEq

/-- students_list_view (dashboard_controller.py lines 91-119): management
receives HTTP 403 with the plain explanatory body; every other role gets
the generated students list with the default 200 status. -/
def students_list_view (roleInfo : RoleInfo) : HttpResponse :=
  if roleInfo.role = .management then
    { status := 403, body := .accessDeniedPage }
  else
    { status := 200, body := .studentsListPage }

/-- _can_access_student (dashboard_student_profile.py lines 89-106):
admin and counselor always pass, management never, a tutor only for a
student whose group is among the allowed ones (a student without a group
yields None, which is never in the id list). -/
def canAccessStudent (st : StudentRec) (roleInfo : RoleInfo) : Bool :=
  match roleInfo.role with
  | .admin => true
  | .counselor => true
  | .management => false
  | .tutor =>
    match st.academic_group_id with
    | some gid => roleInfo.allowed_group_ids.contains gid
    | none => false

/-- generate_student_profile (dashboard_student_profile.py lines 14-53).
Every modelled outcome is RETURNED as a page, never raised: a missing
student and a denied access both come back as _error_html pages, so the
ok branch is the only one this function produces.  hasMetrics abstracts
whether the student has stored metric values; the rendered profile is
abstracted as profilePage. -/
def generate_student_profile (partners : List StudentRec) (student_id : Nat)
    (roleInfo : RoleInfo) (hasMetrics : Bool) : Except String ResponseBody :=
  match partners.find? (fun st => st.id == student_id) with
  | none => .ok (.errorPage "Estudiante no encontrado")
  | some st =>
    if ¬ canAccessStudent st roleInfo then
      .ok (.errorPage "No tiene permisos para ver este perfil")
    else if ¬ hasMetrics then .ok .emptyProfilePage
    else .ok .profilePage

/-- needle is an initial segment of hay. -/
def startsWithChars : (needle hay : List Char) → Bool
  | [], _ => true
  | _ :: _, [] => false
  | c :: cs, d :: ds => c == d && startsWithChars cs ds

/-- Python "needle in hay" substring containment. -/
def hasSubstr (needle : List Char) : List Char → Bool
  | [] => needle.isEmpty
  | d :: ds => startsWithChars needle (d :: ds) || hasSubstr needle ds

/-- The error-message test of dashboard_controller.py lines 158-160:
"permiso" or "access" occurs in the lowercased message. -/
def isPermissionFlavored (msg : String) : Bool :=
  hasSubstr "permiso".data (msg.data.map Char.toLower)
    || hasSubstr "access".data (msg.data.map Char.toLower)

/-- student_profile_view (dashboard_controller.py lines 121-167): a sudo
search for an is_student partner with this id (404 when absent), then the
profile generation inside try/except — an exception whose message is
permission flavored becomes 404, any other becomes 500 with the message
inlined, and a normally returned page is served with status 200. -/
def student_profile_view (partners : List StudentRec) (roleInfo : RoleInfo)
    (student_id : Nat) (hasMetrics : Bool) : HttpResponse :=
  match partners.find? (fun st => st.id == student_id && isStudent st) with
  | none => { status := 404, body := .notFoundPage }
  | some _ =>
    match generate_student_profile partners student_id roleInfo hasMetrics with
    | .ok body => { status := 200, body := body }
    | .error msg =>
      if isPermissionFlavored msg then { status := 404, body := .notFoundPage }
      else { status := 500, body := .errorPage msg }

/-! ## Qualitative response capture (survey_user_input.py,
qualitative_response.py).  Text is modelled as List Char. -/

/-- Python str.split() tokenization: split on runs of whitespace and drop
empty tokens.  cur holds the token being scanned, in reverse. -/
def pySplitAux : List Char → List Char → List (List Char)
  | [], cur => if cur = [] then [] else [cur.reverse]
  | c :: rest, cur =>
    if c.isWhitespace then
      if cur = [] then pySplitAux rest []
      else cur.reverse :: pySplitAux rest []
    else pySplitAux rest (c :: cur)

/-- Python text.split() with no separator argument. -/
def pySplit (s : List Char) : List (List Char) :=
  pySplitAux s []

/-- Python str.strip(): drop leading and trailing whitespace. -/
def pyStrip (s : List Char) : List Char :=
  ((s.dropWhile Char.isWhitespace).reverse.dropWhile Char.isWhitespace).reverse

/-- Python " ".join(words). -/
def joinWords : List (List Char) → List Char
  | [] => []
  | [w] => w
  | w :: w2 :: rest => w ++ ' ' :: joinWords (w2 :: rest)

/-- Appending characters to the last word of a word list — the shape of
the truncated text: the ellipsis attaches directly to the 300th word, with
no separating space. -/
def appendToLast (suffix : List Char) : List (List Char) → List (List Char)
  | [] => []
  | [w] => [w ++ suffix]
  | w :: w2 :: rest => w :: appendToLast suffix (w2 :: rest)

/-- The ellipsis marker appended by the truncation ("..." as characters). -/
def ellipsisChars : List Char := ['.', '.', '.']

/-- The response-text processing of _save_qualitative_responses
(survey_user_input.py lines 117-127): strip the raw value, truncate to the
first 300 words with the ellipsis appended when longer, and skip empty
text (returning none models the continue). -/
def savedQualitativeText (raw : List Char) : Option (List Char) :=
  let response_text := pyStrip raw
  let wordCountRaw := (pySplit response_text).length
  let truncated :=
    if wordCountRaw > 300 then joinWords ((pySplit response_text).take 300) ++ ellipsisChars
    else response_text
  if truncated = [] then none else some truncated

/-- _compute_word_count (qualitative_response.py lines 33-37):
len(response_text.split()) (0 for empty text, which split also gives). -/
def word_count (response_text : List Char) : Nat :=
  (pySplit response_text).length

/-- re.match of the pattern digits-plus-ordinal at the start of a string:
one or more leading digits immediately followed by the masculine ordinal
sign.  The greedy take-while is exact: a shorter digit prefix is followed
by another digit, never by the ordinal sign, so no backtracking match
exists when this fails. -/
def matchLeadingOrdinal (cs : List Char) : Option (List Char) :=
  let ds := cs.takeWhile Char.isDigit
  if ds ≠ [] ∧ (cs.dropWhile Char.isDigit).head? = some 'º' then some ds else none

/-- _compute_course_level (qualitative_response.py lines 82-92): a group
name starting with digits and the ordinal sign yields "<n>º ESO" —
whatever the group level actually is — and any other name yields the fixed
"Curso no especificado"; a record without a group gets False (none). -/
def compute_course_level (groupName : Option String) : Option String :=
  match groupName with
  | none => none
  | some name =>
    match matchLeadingOrdinal name.data with
    | some ds => some (String.mk ds ++ "º ESO")
    | none => some "Curso no especificado"

/-! ## Alert keyword registry (qualitative_response.py, AlertKeyword) -/

/-- One aulametrics.alert_keyword record. -/
structure AlertKeyword where
  id : Nat
  keyword : String
  severity : String := "moderate"
  is_system_default : Bool := false
  is_variant : Bool := false
  parent_keyword_id : Option Nat := none
  active : Bool := true
  sequence : Nat := 10
  deriving DecidableEq

/-- Python str.lower().  Char.toLower lowercases the ASCII range and
leaves accented characters unchanged; the keywords exercised here are
already lowercase outside ASCII. -/
def pyLower (s : String) : String :=
  String.mk (s.data.map Char.toLower)

/-- One accented character mapped to its plain form (the accent_map of
_generate_accent_variants, lines 199-202). -/
def deaccentChar (c : Char) : Char :=
  if c = 'á' then 'a'
  else if c = 'é' then 'e'
  else if c = 'í' then 'i'
  else if c = 'ó' then 'o'
  else if c = 'ú' then 'u'
  else if c = 'ü' then 'u'
  else if c = 'ñ' then 'n'
  else c

/-- The chain of str.replace calls over the accent map (lines 204-207):
equivalent to a character map because every source is a single character
and no replacement target is itself a source. -/
def deaccent (w : String) : String :=
  String.mk (w.data.map deaccentChar)

/-- Python word.replace(old, new, 1) for single-character patterns. -/
def replaceFirstChar (old new : Char) : List Char → List Char
  | [] => []
  | c :: cs => if c = old then new :: cs else c :: replaceFirstChar old new cs

/-- _generate_accent_variants (lines 194-219): the de-accented form when it
differs, plus — when the word contains an unaccented vowel — one variant
per vowel kind with its first occurrence accented. -/
def generateAccentVariants (word : String) : List String :=
  let noAccent := if deaccent word ≠ word then [deaccent word] else []
  let hasVowel := word.data.any (fun c =>
    c == 'a' || c == 'e' || c == 'i' || c == 'o' || c == 'u')
  let accented :=
    if hasVowel then
      [('a', 'á'), ('e', 'é'), ('i', 'í'), ('o', 'ó'), ('u', 'ú')].filterMap
        (fun p =>
          if word.data.contains p.1 then
            some (String.mk (replaceFirstChar p.1 p.2 word.data))
          else none)
    else []
  noAccent ++ accented

/-- The curated dictionary of Spanish word families
(_generate_grammatical_variants, lines 229-311). -/
def COMMON_VARIANTS : List (String × List String) :=
  [ ("suicidio", ["suicida", "suicidas", "suicidarse", "suicidar", "suicidó", "suicidándose"])
  , ("suicida", ["suicidio", "suicidas", "suicidarse"])
  , ("depresion", ["depresivo", "depresiva", "deprimido", "deprimida", "deprimir"])
  , ("depresión", ["depresivo", "depresiva", "deprimido", "deprimida", "deprimir"])
  , ("depresivo", ["depresion", "depresión", "deprimido"])
  , ("deprimido", ["depresion", "depresión", "deprimir"])
  , ("ansiedad", ["ansioso", "ansiosa", "ansiedades"])
  , ("ansioso", ["ansiedad"])
  , ("acoso", ["acosar", "acosado", "acosada", "acosador", "acosadora", "acosos"])
  , ("acosar", ["acoso", "acosado", "acosador"])
  , ("acosado", ["acoso", "acosar"])
  , ("bullying", ["bully", "bullyng"])
  , ("maltrato", ["maltratar", "maltratado", "maltratada", "maltratador"])
  , ("maltratar", ["maltrato", "maltratado"])
  , ("abuso", ["abusar", "abusado", "abusada", "abusador", "abusiva", "abusivo"])
  , ("abusar", ["abuso", "abusado", "abusador"])
  , ("violencia", ["violento", "violenta", "violentar"])
  , ("violento", ["violencia"])
  , ("muerte", ["morir", "muerto", "muerta", "muriendo", "morirse"])
  , ("morir", ["muerte", "muerto", "muriendo"])
  , ("muerto", ["muerte", "morir"])
  , ("matar", ["mata", "mato", "matado", "matando", "matarme", "matarse"])
  , ("matarme", ["matar", "matarse"])
  , ("cortar", ["corto", "cortado", "cortando", "cortarme"])
  , ("cortarme", ["cortar", "cortarse"])
  , ("miedo", ["miedos", "miedoso", "temer", "temor"])
  , ("temer", ["miedo", "temor"])
  , ("tristeza", ["triste", "tristes", "entristecer"])
  , ("triste", ["tristeza", "tristes"])
  , ("soledad", ["solo", "sola", "solos", "solas"])
  , ("solo", ["soledad", "sola"])
  , ("llorar", ["lloro", "llora", "llorando", "lloré"])
  , ("lloro", ["llorar", "llorando"])
  , ("pegar", ["pego", "pega", "pegado", "pegando", "pegaron"])
  , ("golpear", ["golpe", "golpes", "golpeado", "golpeando"])
  , ("golpe", ["golpear", "golpes", "golpeado"])
  , ("amenaza", ["amenazar", "amenazado", "amenazas", "amenazador"])
  , ("amenazar", ["amenaza", "amenazado"])
  , ("odio", ["odiar", "odiado", "odia"])
  , ("odiar", ["odio", "odiado"])
  , ("panico", ["panicos"])
  , ("pánico", ["pánicos"]) ]

/-- word ends with the given suffix. -/
def endsWithChars (w suffix : List Char) : Bool :=
  startsWithChars suffix.reverse w.reverse

/-- _generate_grammatical_variants (lines 221-324): the dictionary entry
for the word, plus a naive plural ("s" after a vowel, "es" otherwise) when
the word does not already end in "s". -/
def generateGrammaticalVariants (word : String) : List String :=
  let dictVariants :=
    match COMMON_VARIANTS.find? (fun p => p.1 == word) with
    | some p => p.2
    | none => []
  let plural :=
    if !endsWithChars word.data ['s'] then
      if endsWithChars word.data ['a'] || endsWithChars word.data ['e']
          || endsWithChars word.data ['i'] || endsWithChars word.data ['o']
          || endsWithChars word.data ['u'] then
        [word ++ "s"]
      else [word ++ "es"]
    else []
  dictVariants ++ plural

/-- The variant set of _generate_variants (lines 151-170): accent and
grammatical variants of the lowercased keyword, without the keyword itself
and without variants of length at most 2.  Python collects them in a set;
the model deduplicates a list (the theorems depend only on membership). -/
def variantList (keyword : String) : List String :=
  let keyword_lower := pyLower keyword
  ((generateAccentVariants keyword_lower
      ++ generateGrammaticalVariants keyword_lower).eraseDups).filter
    (fun v => v ≠ keyword_lower && v ≠ "" && v.length > 2)

/-- A fresh record id (the store grows append-only). -/
def nextKeywordId (store : List AlertKeyword) : Nat :=
  (store.map (fun r => r.id)).foldl max 0 + 1

/-- One iteration of the creation loop of _generate_variants (lines
172-192): skip when any record with this keyword already exists (the
uniqueness constraint would reject it), otherwise create the protected
child row linked to the parent. -/
def createVariantRow (parent : AlertKeyword) (store : List AlertKeyword)
    (v : String) : List AlertKeyword :=
  if store.any (fun r => r.keyword == v) then store
  else
    store ++ [{ id := nextKeywordId store, keyword := v, severity := parent.severity,
                is_variant := true, parent_keyword_id := some parent.id,
                active := parent.active, sequence := parent.sequence + 1 }]

/-- AlertKeyword.create (lines 124-133): insert the row, then — for a
non-variant, non-system keyword — generate its variants. -/
def alertKeywordCreate (store : List AlertKeyword) (keyword : String)
    (isSystemDefault : Bool := false) (isVariant : Bool := false) : List AlertKeyword :=
  let parentRow : AlertKeyword :=
    { id := nextKeywordId store, keyword := keyword,
      is_system_default := isSystemDefault, is_variant := isVariant }
  let store1 := store ++ [parentRow]
  if ¬ isVariant ∧ ¬ isSystemDefault then
    (variantList keyword).foldl (createVariantRow parentRow) store1
  else store1

/-- AlertKeyword.unlink (lines 326-334) together with the
ondelete cascade declared on parent_keyword_id (line 114): deleting a
system keyword raises a ValidationError; otherwise the row is removed and
the cascade removes its variant children (variants are never themselves
parents, so one level suffices). -/
def alertKeywordUnlink (store : List AlertKeyword) (kid : Nat) :
    Except String (List AlertKeyword) :=
  match store.find? (fun r => r.id == kid) with
  | none => .ok store
  | some r =>
    if r.is_system_default then
      .error ("No se puede eliminar la palabra clave " ++ r.keyword)
    else
      .ok (store.filter (fun q => !(q.id == kid || q.parent_keyword_id == some kid)))

end AulaMetrics

namespace AulaMetrics

/-- C1: For a completed WHO-5 response with all 5 items at the maximum
ordinal, calculate_scores (survey_extension.py lines 234-261) is claimed to
return a who5_score metric of exactly 100.0, and no who5_score for a 4-of-5
response.  The code instead returns no metrics at all: the dispatch
instantiates the strategy without its required config argument, the
TypeError is swallowed and [] is returned.  The Who5Scoring strategy
itself, given its SURVEY_SCORING_CONFIGS entry, does return exactly
who5_score = 100.0 for the full response and nothing for the partial one,
confirming the intended behaviour the claim describes. -/
theorem c1_who5_dispatch_returns_nothing :
    calculate_scores who5Survey (some who5MaxInput) = []
    ∧ calculate_scores who5Survey (some who5FourInput) = []
    ∧ who5Calculate who5Survey WHO5_CONFIG who5MaxInput =
        [{ metric_name := "who5_score", metric_label := "who5_score", value_float := some 100 }]
    ∧ who5Calculate who5Survey WHO5_CONFIG who5FourInput = [] := by
  refine ⟨rfl, rfl, ?_, ?_⟩ <;>
    norm_num [who5Calculate, baseScore, subscaleValues, matrixQuestions, sortBySequence,
      insertBySequence, WHO5_CONFIG, who5Survey, who5MaxInput, who5FourInput,
      List.filterMap_cons, Option.bind]

end AulaMetrics

namespace AulaMetrics

/-- C3 counterexample: a Bullying-VA response whose victimization block is
fully answered (score 25.0) while the aggression block is unanswered still
gets a combined bullying_score metric (equal to the single available
sub-score), because BullyingVAScoring.calculate emits the combined metric
whenever at least one of the listed sub-scores is present
(survey_scoring_strategies.py lines 96-108) — refuting the claim that no
combined score is emitted when only one sub-score exists. -/
theorem c3_single_block_still_emits_combined :
    victimizationScore bullyingSurvey bullyingOneBlockInput = some 25
    ∧ aggressionScore bullyingSurvey bullyingOneBlockInput = none
    ∧ findMetricFloat (bullyingCalculate bullyingSurvey BULLYING_VA_CONFIG bullyingOneBlockInput)
        "bullying_score" = some 25 := by
  have hne : ("victimization_score" = "aggression_score") = False := by decide
  have hne2 : ("victimization_score" = "bullying_score") = False := by decide
  refine ⟨?_, ?_, ?_⟩ <;>
    norm_num [victimizationScore, aggressionScore, bullyingCalculate, bullyingStep,
      sortSubscalesCombineLast, BULLYING_VA_CONFIG, baseScore, subscaleValues, sliceOne,
      matrixQuestions, sortBySequence, insertBySequence, bullyingSurvey, bullyingOneBlockInput,
      findMetricFloat, List.filterMap_cons, Option.bind, hne, hne2]

/-- C3 (amended): the combined bullying_score of one BullyingVAScoring pass
is the arithmetic mean of the sub-scores that were actually computed: with
both blocks present it is (v + a) / 2 — in particular 50.0 for sub-scores
40.0 and 60.0 —, with exactly one block present it equals that single
block score, and with no block present no bullying_score is emitted. -/
theorem c3_combined_is_mean_of_available (s : Survey) (ui : UserInput) :
    (∀ v a : ℚ, victimizationScore s ui = some v → aggressionScore s ui = some a →
      findMetricFloat (bullyingCalculate s BULLYING_VA_CONFIG ui) "bullying_score"
        = some ((v + a) / 2))
    ∧ (∀ v : ℚ, victimizationScore s ui = some v → aggressionScore s ui = none →
      findMetricFloat (bullyingCalculate s BULLYING_VA_CONFIG ui) "bullying_score" = some v)
    ∧ (∀ a : ℚ, victimizationScore s ui = none → aggressionScore s ui = some a →
      findMetricFloat (bullyingCalculate s BULLYING_VA_CONFIG ui) "bullying_score" = some a)
    ∧ (victimizationScore s ui = none → aggressionScore s ui = none →
      findMetricFloat (bullyingCalculate s BULLYING_VA_CONFIG ui) "bullying_score" = none) := by
  have hne : ("victimization_score" = "aggression_score") = False := by decide
  have hne2 : ("victimization_score" = "bullying_score") = False := by decide
  have hne3 : ("aggression_score" = "bullying_score") = False := by decide
  refine ⟨?_, ?_, ?_, ?_⟩
  · intro v a hv ha
    simp only [victimizationScore, aggressionScore] at hv ha
    simp [bullyingCalculate, bullyingStep, sortSubscalesCombineLast, BULLYING_VA_CONFIG,
      hv, ha, findMetricFloat, hne, hne2, hne3]
  · intro v hv ha
    simp only [victimizationScore, aggressionScore] at hv ha
    simp [bullyingCalculate, bullyingStep, sortSubscalesCombineLast, BULLYING_VA_CONFIG,
      hv, ha, findMetricFloat, hne, hne2, hne3]
  · intro a hv ha
    simp only [victimizationScore, aggressionScore] at hv ha
    simp [bullyingCalculate, bullyingStep, sortSubscalesCombineLast, BULLYING_VA_CONFIG,
      hv, ha, findMetricFloat, hne, hne2, hne3]
  · intro hv ha
    simp only [victimizationScore, aggressionScore] at hv ha
    simp [bullyingCalculate, bullyingStep, sortSubscalesCombineLast, BULLYING_VA_CONFIG,
      hv, ha, findMetricFloat, hne, hne2, hne3]

/-- C3 witness: a concrete response with both blocks complete (sub-scores
25.0 and 50.0) whose combined bullying_score is their mean 37.5. -/
theorem c3_combined_is_mean_witness :
    victimizationScore bullyingSurvey bullyingTwoBlockInput = some 25
    ∧ aggressionScore bullyingSurvey bullyingTwoBlockInput = some 50
    ∧ findMetricFloat (bullyingCalculate bullyingSurvey BULLYING_VA_CONFIG bullyingTwoBlockInput)
        "bullying_score" = some ((25 + 50) / 2) := by
  have hv : victimizationScore bullyingSurvey bullyingTwoBlockInput = some 25 := by
    norm_num [victimizationScore, baseScore, subscaleValues, sliceOne, matrixQuestions,
      sortBySequence, insertBySequence, bullyingSurvey, bullyingTwoBlockInput,
      List.filterMap_cons, Option.bind]
  have ha : aggressionScore bullyingSurvey bullyingTwoBlockInput = some 50 := by
    norm_num [aggressionScore, baseScore, subscaleValues, sliceOne, matrixQuestions,
      sortBySequence, insertBySequence, bullyingSurvey, bullyingTwoBlockInput,
      List.filterMap_cons, Option.bind]
  exact ⟨hv, ha,
    (c3_combined_is_mean_of_available bullyingSurvey bullyingTwoBlockInput).1 25 50 hv ha⟩

end AulaMetrics

namespace AulaMetrics

/-! ### Helper lemmas about participation creation -/

lemma pairCount_append_single (store : List Participation) (p : Participation) (a b : Nat) :
    pairCount (store ++ [p]) a b =
      pairCount store a b + (if participationMatch a b p then 1 else 0) := by
  simp only [pairCount, List.filter_append]
  split <;> simp_all [List.filter]

lemma any_match_iff (store : List Participation) (eid sid : Nat) :
    store.any (participationMatch eid sid) = true ↔ 0 < pairCount store eid sid := by
  simp [pairCount, List.length_pos_iff_exists_mem, List.mem_filter, List.any_eq_true]

lemma addParticipation_pairCount_le (eid sid : Nat) (store : List Participation)
    (hb : ∀ a b, pairCount store a b ≤ 1) (a b : Nat) :
    pairCount (addParticipation eid store sid) a b ≤ 1 := by
  unfold addParticipation
  split
  · exact hb a b
  · rename_i hany
    rw [pairCount_append_single]
    split
    · rename_i hm
      simp only [participationMatch, Bool.and_eq_true, beq_iff_eq] at hm
      obtain ⟨rfl, rfl⟩ := hm
      have h0 : ¬ 0 < pairCount store eid sid := fun hpos =>
        hany ((any_match_iff store eid sid).mpr hpos)
      omega
    · simpa using hb a b

lemma addParticipation_pairCount_mono (eid sid a b : Nat) (store : List Participation) :
    pairCount store a b ≤ pairCount (addParticipation eid store sid) a b := by
  unfold addParticipation
  split
  · exact le_refl _
  · rw [pairCount_append_single]; omega

lemma addParticipation_pairCount_of_pos (eid sid a b : Nat) (store : List Participation)
    (hpos : 0 < pairCount store a b) :
    pairCount (addParticipation eid store sid) a b = pairCount store a b := by
  unfold addParticipation
  split
  · rfl
  · rename_i hany
    rw [pairCount_append_single]
    split
    · rename_i hm
      simp only [participationMatch, Bool.and_eq_true, beq_iff_eq] at hm
      obtain ⟨rfl, rfl⟩ := hm
      exact absurd ((any_match_iff store eid sid).mpr hpos) hany
    · omega

lemma addParticipation_pos_self (eid sid : Nat) (store : List Participation) :
    0 < pairCount (addParticipation eid store sid) eid sid := by
  unfold addParticipation
  split
  · rename_i hany
    exact (any_match_iff store eid sid).mp hany
  · rw [pairCount_append_single]
    have hm : participationMatch eid sid
        { evaluation_id := eid, student_id := sid, state := .pending } = true := by
      simp [participationMatch]
    simp [hm]

lemma foldl_add_pairCount_le (eid : Nat) (l : List Nat) (store : List Participation)
    (hb : ∀ a b, pairCount store a b ≤ 1) :
    ∀ a b, pairCount (l.foldl (addParticipation eid) store) a b ≤ 1 := by
  induction l generalizing store with
  | nil => exact hb
  | cons s rest ih =>
    exact ih (addParticipation eid store s) (addParticipation_pairCount_le eid s store hb)

lemma foldl_add_pairCount_mono (eid : Nat) (l : List Nat) (store : List Participation)
    (a b : Nat) :
    pairCount store a b ≤ pairCount (l.foldl (addParticipation eid) store) a b := by
  induction l generalizing store with
  | nil => exact le_refl _
  | cons s rest ih =>
    exact le_trans (addParticipation_pairCount_mono eid s a b store)
      (ih (addParticipation eid store s))

lemma foldl_add_pairCount_of_pos (eid : Nat) (l : List Nat) (store : List Participation)
    (a b : Nat) (hpos : 0 < pairCount store a b) :
    pairCount (l.foldl (addParticipation eid) store) a b = pairCount store a b := by
  induction l generalizing store with
  | nil => rfl
  | cons s rest ih =>
    rw [List.foldl_cons, ih (addParticipation eid store s)
        (lt_of_lt_of_le hpos (addParticipation_pairCount_mono eid s a b store)),
      addParticipation_pairCount_of_pos eid s a b store hpos]

lemma foldl_add_id_of_pos (eid : Nat) (l : List Nat) (store : List Participation)
    (h : ∀ sid ∈ l, 0 < pairCount store eid sid) :
    l.foldl (addParticipation eid) store = store := by
  induction l with
  | nil => rfl
  | cons s rest ih =>
    have hs : addParticipation eid store s = store := by
      unfold addParticipation
      rw [if_pos ((any_match_iff store eid s).mpr (h s (by simp)))]
    rw [List.foldl_cons, hs, ih (fun sid hm => h sid (by simp [hm]))]

lemma foldl_add_pos_mem (eid : Nat) (l : List Nat) :
    ∀ (store : List Participation) (sid : Nat), sid ∈ l →
      0 < pairCount (l.foldl (addParticipation eid) store) eid sid := by
  induction l with
  | nil => intro _ _ h; cases h
  | cons s rest ih =>
    intro store sid hmem
    rw [List.foldl_cons]
    rcases List.mem_cons.mp hmem with rfl | hrest
    · exact lt_of_lt_of_le (addParticipation_pos_self eid sid store)
        (foldl_add_pairCount_mono eid rest (addParticipation eid store sid) eid sid)
    · exact ih (addParticipation eid store s) sid hrest

lemma nestedFold_eq_flatFold (eid : Nat) (gs : List AcademicGroup) (store : List Participation) :
    gs.foldl (fun acc g => g.student_ids.foldl (addParticipation eid) acc) store
      = (gs.flatMap (fun g => g.student_ids)).foldl (addParticipation eid) store := by
  induction gs generalizing store with
  | nil => rfl
  | cons g rest ih =>
    rw [List.foldl_cons, List.flatMap_cons, List.foldl_append]
    exact ih (g.student_ids.foldl (addParticipation eid) store)

lemma createParticipations_eq_flat (e : Evaluation) (store : List Participation) :
    createParticipations e store
      = (e.academic_group_ids.flatMap (fun g => g.student_ids)).foldl
          (addParticipation e.id) store :=
  nestedFold_eq_flatFold e.id e.academic_group_ids store

end AulaMetrics

namespace AulaMetrics

/-- C6: an evaluation without a survey or without an academic group cannot
be scheduled — action_schedule raises a ValidationError, which aborts the
transaction, so nothing changes — and after action_close every
still-pending participation of the evaluation is expired: none of the
evaluation's rows remains pending, and each previously pending row is
present with state expired. -/
theorem c6_schedule_validation_and_close_expires (e : Evaluation) (store : List Participation) :
    (e.survey_ids = [] ∨ e.academic_group_ids = [] →
      ∃ msg, action_schedule e store = .error msg)
    ∧ (action_close e store).1.state = .closed
    ∧ (∀ q ∈ (action_close e store).2, q.evaluation_id = e.id → q.state ≠ .pending)
    ∧ (∀ p ∈ store, p.evaluation_id = e.id → p.state = .pending →
        { p with state := PartState.expired } ∈ (action_close e store).2) := by
  refine ⟨?_, rfl, ?_, ?_⟩
  · rintro (h | h)
    · exact ⟨"Debe asignar al menos un cuestionario.", by simp [action_schedule, h]⟩
    · by_cases hs : e.survey_ids = []
      · exact ⟨"Debe asignar al menos un cuestionario.", by simp [action_schedule, hs]⟩
      · exact ⟨"Debe asignar al menos un grupo académico.", by simp [action_schedule, hs, h]⟩
  · intro q hq heq
    simp only [action_close, List.mem_map] at hq
    obtain ⟨p, hp, hfp⟩ := hq
    by_cases hc : p.evaluation_id = e.id ∧ p.state = .pending
    · rw [if_pos hc] at hfp
      subst hfp
      simp [actionExpireOne, hc.2]
    · rw [if_neg hc] at hfp
      subst hfp
      intro hpend
      exact hc ⟨heq, hpend⟩
  · intro p hp heq hpend
    simp only [action_close, List.mem_map]
    refine ⟨p, hp, ?_⟩
    rw [if_pos ⟨heq, hpend⟩]
    simp [actionExpireOne, hpend]

/-- C6 witness: a concrete evaluation with no surveys cannot be scheduled,
and closing a one-participation evaluation expires its pending row. -/
theorem c6_schedule_close_witness :
    (({ id := 1 } : Evaluation).survey_ids = [] ∨
        ({ id := 1 } : Evaluation).academic_group_ids = [])
    ∧ (∃ msg, action_schedule { id := 1 } [] = .error msg)
    ∧ (({ id := 7, evaluation_id := 2, student_id := 100, state := PartState.expired }
          : Participation)
        ∈ (action_close { id := 2, survey_ids := [1] }
            [{ id := 7, evaluation_id := 2, student_id := 100, state := PartState.pending }]).2) :=
  ⟨Or.inl rfl,
   (c6_schedule_validation_and_close_expires { id := 1 } []).1 (Or.inl rfl),
   (c6_schedule_validation_and_close_expires { id := 2, survey_ids := [1] }
      [{ id := 7, evaluation_id := 2, student_id := 100, state := PartState.pending }]).2.2.2
      { id := 7, evaluation_id := 2, student_id := 100, state := PartState.pending }
      (by simp) rfl rfl⟩

/-- C7: participation materialization preserves the at-most-one
participation per (evaluation, student) invariant; running it again is the
identity (a second scheduling pass creates nothing); and for a student who
already has a participation for the evaluation, the row count of that pair
is unchanged. -/
theorem c7_no_duplicate_participations (e : Evaluation) (store : List Participation)
    (hinv : ∀ a b, pairCount store a b ≤ 1) :
    (∀ a b, pairCount (createParticipations e store) a b ≤ 1)
    ∧ createParticipations e (createParticipations e store) = createParticipations e store
    ∧ (∀ sid, 0 < pairCount store e.id sid →
        pairCount (createParticipations e store) e.id sid = pairCount store e.id sid) := by
  refine ⟨?_, ?_, ?_⟩
  · intro a b
    rw [createParticipations_eq_flat]
    exact foldl_add_pairCount_le e.id _ store hinv a b
  · rw [createParticipations_eq_flat e (createParticipations e store)]
    apply foldl_add_id_of_pos
    intro sid hmem
    rw [createParticipations_eq_flat]
    exact foldl_add_pos_mem e.id _ store sid hmem
  · intro sid hpos
    rw [createParticipations_eq_flat]
    exact foldl_add_pairCount_of_pos e.id _ store e.id sid hpos

/-- C7 witness: a store that already holds the (evaluation 10, student 100)
participation satisfies the invariant, and scheduling evaluation 10 over a
group containing student 100 leaves that pair's row count at 1. -/
theorem c7_no_duplicate_witness :
    pairCount (createParticipations
        { id := 10, survey_ids := [1],
          academic_group_ids := [{ id := 5, student_ids := [100], student_count := 1 }] }
        [{ id := 1, evaluation_id := 10, student_id := 100, state := PartState.pending }])
      10 100
      = pairCount [{ id := 1, evaluation_id := 10, student_id := 100,
                     state := PartState.pending : Participation }] 10 100 :=
  (c7_no_duplicate_participations
    { id := 10, survey_ids := [1],
      academic_group_ids := [{ id := 5, student_ids := [100], student_count := 1 }] }
    [{ id := 1, evaluation_id := 10, student_id := 100, state := PartState.pending }]
    (fun _ _ => List.length_filter_le _ _)).2.2 100 (by decide)

end AulaMetrics

namespace AulaMetrics

/-! ### Helper lemmas about the alert stores -/

lemma activeGroupCount_append_one (alerts : List Alert) (a : Alert) (tid gid : Nat) :
    activeGroupCount (alerts ++ [a]) tid gid =
      activeGroupCount alerts tid gid + (if activeGroupMatch tid gid a then 1 else 0) := by
  simp only [activeGroupCount, List.filter_append]
  split <;> simp_all [List.filter]

lemma groupCreate_count_le (acc : List Alert) (t : Threshold) (g : AcademicGroup) (per : ℚ)
    (hguard : acc.filter (activeGroupMatch t.id g.id) = [])
    (hinv : ∀ tid gid, activeGroupCount acc tid gid ≤ 1) (tid gid : Nat) :
    activeGroupCount
      (acc ++ [{ threshold_id := t.id, academic_group_id := some g.id,
                 score_value := per, alert_level := .group }]) tid gid ≤ 1 := by
  rw [activeGroupCount_append_one]
  split
  · rename_i hm
    simp only [activeGroupMatch, Bool.and_eq_true, beq_iff_eq] at hm
    obtain ⟨⟨⟨h1, h2⟩, -⟩, -⟩ := hm
    obtain rfl := h1
    obtain h2' : g.id = gid := by simpa using h2
    obtain rfl := h2'
    have h0 : activeGroupCount acc t.id g.id = 0 := by
      simp [activeGroupCount, hguard]
    omega
  · simpa using hinv tid gid

lemma checkGroupAlert_preserves_invariant (alerts : List Alert) (t : Threshold)
    (g : AcademicGroup) (hinv : ∀ tid gid, activeGroupCount alerts tid gid ≤ 1) :
    ∀ tid gid, activeGroupCount (checkGroupAlert alerts t g) tid gid ≤ 1 := by
  intro tid gid
  unfold checkGroupAlert
  dsimp only
  split_ifs
  all_goals
    first
      | exact hinv tid gid
      | exact groupCreate_count_le alerts t g _ (by assumption) hinv tid gid

lemma groupAlertStep_preserves_invariant (entry : List Alert) (g : AcademicGroup)
    (tot : Nat) (acc : List Alert) (t : Threshold)
    (h : ∀ tid gid, activeGroupCount acc tid gid ≤ 1) :
    ∀ tid gid, activeGroupCount (groupAlertStep entry g tot acc t) tid gid ≤ 1 := by
  intro tid gid
  unfold groupAlertStep
  dsimp only
  split_ifs with h1 h2
  · exact groupCreate_count_le acc t g _ h2 h tid gid
  · exact h tid gid
  · exact h tid gid

lemma foldl_groupAlertStep_preserves_invariant (entry : List Alert) (g : AcademicGroup)
    (tot : Nat) (l : List Threshold) :
    ∀ (acc : List Alert), (∀ tid gid, activeGroupCount acc tid gid ≤ 1) →
      ∀ tid gid, activeGroupCount (l.foldl (groupAlertStep entry g tot) acc) tid gid ≤ 1 := by
  induction l with
  | nil => exact fun _ h => h
  | cons t rest ih =>
    intro acc h
    exact ih _ (groupAlertStep_preserves_invariant entry g tot acc t h)

lemma checkAllGroupAlerts_preserves_invariant (alerts : List Alert) (g : AcademicGroup)
    (ts : List Threshold) (hinv : ∀ tid gid, activeGroupCount alerts tid gid ≤ 1) :
    ∀ tid gid, activeGroupCount (checkAllGroupAlerts alerts g ts) tid gid ≤ 1 := by
  unfold checkAllGroupAlerts
  dsimp only
  split_ifs
  all_goals
    first
      | exact hinv
      | exact foldl_groupAlertStep_preserves_invariant alerts g _ _ alerts hinv

end AulaMetrics

namespace AulaMetrics

/-- C2: an active threshold "metric greater than 40" whose metric value for
the participation is 55 is claimed to yield exactly one active individual
alert after two consecutive real-time checks.  The code creates none:
threshold.score_field holds a survey code, which is not an attribute of the
participation model, so getattr(participation, score_field, 0) returns the
falsy default 0 and every threshold is skipped (the group pass then counts
zero individual alerts and creates nothing either).  Both runs leave the
alert store empty — zero alerts, not one. -/
theorem c2_check_alerts_creates_no_alert :
    get_metric_value c2MetricStore c2Participation c2Threshold.score_field = some 55
    ∧ check_alerts_for_participation [] c2Participation c2Group [c2Threshold] = []
    ∧ check_alerts_for_participation
        (check_alerts_for_participation [] c2Participation c2Group [c2Threshold])
        c2Participation c2Group [c2Threshold] = []
    ∧ ((check_alerts_for_participation
          (check_alerts_for_participation [] c2Participation c2Group [c2Threshold])
          c2Participation c2Group [c2Threshold]).filter
        (fun a => a.threshold_id == c2Threshold.id
          && a.participation_id == some c2Participation.id
          && a.status == AlertStatus.active)).length = 0 := by
  have hgetattr : getattrParticipationScore "WHO5" 0 = .ok 0 := rfl
  have hrun : check_alerts_for_participation [] c2Participation c2Group [c2Threshold] = [] := by
    norm_num [check_alerts_for_participation, checkIndividualForThreshold, hgetattr,
      checkAllGroupAlerts, groupAlertStep, activeIndividualCount, activeIndividualMatch,
      activeGroupMatch, c2Threshold, c2Participation, c2Group]
  refine ⟨rfl, hrun, ?_, ?_⟩ <;> rw [hrun, hrun]
  · simp

/-- C4: with group_threshold_percentage 25 and a group of 8 students, the
group-level alert check creates the group alert exactly at 2 active
individual alerts (2 of 8 is 25 percent) — provided none is already active
— creates nothing at 1 of 8 (12.5 percent), and both group-alert passes
preserve the at-most-one-active-group-alert invariant per
(threshold, group). -/
theorem c4_group_alert_at_twentyfive_percent (alerts : List Alert) (t : Threshold)
    (g : AcademicGroup) (ts : List Threshold)
    (hp : t.group_threshold_percentage = 25) (hc : g.student_count = 8) :
    (activeIndividualCount alerts t.id g.id = 2 →
      alerts.filter (activeGroupMatch t.id g.id) = [] →
      checkGroupAlert alerts t g =
        alerts ++ [{ threshold_id := t.id, academic_group_id := some g.id,
                     score_value := 25, alert_level := .group }])
    ∧ (activeIndividualCount alerts t.id g.id = 1 → checkGroupAlert alerts t g = alerts)
    ∧ ((∀ tid gid, activeGroupCount alerts tid gid ≤ 1) →
        ∀ tid gid, activeGroupCount (checkGroupAlert alerts t g) tid gid ≤ 1)
    ∧ ((∀ tid gid, activeGroupCount alerts tid gid ≤ 1) →
        ∀ tid gid, activeGroupCount (checkAllGroupAlerts alerts g ts) tid gid ≤ 1) := by
  refine ⟨?_, ?_, ?_, ?_⟩
  · intro h2 hguard
    simp only [checkGroupAlert, hp, hc, activeIndividualCount] at *
    simp only [h2, hguard]
    norm_num
  · intro h1
    simp only [checkGroupAlert, hp, hc, activeIndividualCount] at *
    simp only [h1]
    norm_num
  · intro hinv
    exact checkGroupAlert_preserves_invariant alerts t g hinv
  · intro hinv
    exact checkAllGroupAlerts_preserves_invariant alerts g ts hinv

end AulaMetrics

namespace AulaMetrics

/-- C4 witness: with the default 25 percent threshold and an 8-student
group, two concrete active individual alerts make the group check create
exactly the group alert with score 25. -/
theorem c4_group_alert_trigger_witness :
    checkGroupAlert
      [ { threshold_id := 7, participation_id := some 1, student_id := some 100,
          academic_group_id := some 5, score_value := 55, alert_level := .individual }
      , { threshold_id := 7, participation_id := some 2, student_id := some 101,
          academic_group_id := some 5, score_value := 60, alert_level := .individual } ]
      { id := 7, score_field := "WHO5", threshold_value := 40 }
      { id := 5, student_ids := [100, 101, 102, 103, 104, 105, 106, 107], student_count := 8 }
      = [ { threshold_id := 7, participation_id := some 1, student_id := some 100,
            academic_group_id := some 5, score_value := 55, alert_level := .individual }
        , { threshold_id := 7, participation_id := some 2, student_id := some 101,
            academic_group_id := some 5, score_value := 60, alert_level := .individual } ]
        ++ [{ threshold_id := 7, academic_group_id := some 5,
              score_value := 25, alert_level := .group }] :=
  (c4_group_alert_at_twentyfive_percent
    [ { threshold_id := 7, participation_id := some 1, student_id := some 100,
        academic_group_id := some 5, score_value := 55, alert_level := .individual }
    , { threshold_id := 7, participation_id := some 2, student_id := some 101,
        academic_group_id := some 5, score_value := 60, alert_level := .individual } ]
    { id := 7, score_field := "WHO5", threshold_value := 40 }
    { id := 5, student_ids := [100, 101, 102, 103, 104, 105, 106, 107], student_count := 8 }
    [] rfl rfl).1 rfl rfl

end AulaMetrics

namespace AulaMetrics

/-- C5 counterexample: a logged-in management user requesting the profile
of an existing student receives the "no permission" error page with HTTP
status 200, not 403: generate_student_profile RETURNS its _error_html page
instead of raising, so the controller serves it through
request.make_response with the default status and the 403/404 mapping never
applies.  (The students list route does return 403, and no profile content
is served.) -/
theorem c5_management_profile_is_status_200 :
    (student_profile_view [{ id := 1, academic_group_id := some 5 }]
        { role := .management, anonymize_students := true } 1 true).status = 200
    ∧ (student_profile_view [{ id := 1, academic_group_id := some 5 }]
        { role := .management, anonymize_students := true } 1 true).body
        = .errorPage "No tiene permisos para ver este perfil"
    ∧ (student_profile_view [{ id := 1, academic_group_id := some 5 }]
        { role := .management, anonymize_students := true } 1 true).status ≠ 403 := by
  refine ⟨rfl, rfl, by decide⟩

/-- C5 (amended): for a management user, the students list route responds
403 with the plain explanatory body; an unknown (or non-student) id on the
profile route responds 404; and an existing student's profile route
responds with the "no permission" error page — never profile content — but
with HTTP status 200, because the permission failure is returned as a page
rather than raised. -/
theorem c5_management_routes (partners : List StudentRec) (roleInfo : RoleInfo)
    (sid : Nat) (hasMetrics : Bool) (hrole : roleInfo.role = .management) :
    students_list_view roleInfo = { status := 403, body := .accessDeniedPage }
    ∧ (partners.find? (fun st => st.id == sid && isStudent st) = none →
        student_profile_view partners roleInfo sid hasMetrics
          = { status := 404, body := .notFoundPage })
    ∧ (∀ st, partners.find? (fun st => st.id == sid && isStudent st) = some st →
        student_profile_view partners roleInfo sid hasMetrics
          = { status := 200,
              body := .errorPage "No tiene permisos para ver este perfil" }) := by
  refine ⟨by simp [students_list_view, hrole], ?_, ?_⟩
  · intro hnone
    simp [student_profile_view, hnone]
  · intro st hfind
    have hmem := List.find?_some hfind
    have hmem2 := List.mem_of_find?_eq_some hfind
    simp only [Bool.and_eq_true, beq_iff_eq] at hmem
    have hexists : (partners.find? (fun st => st.id == sid)).isSome := by
      rw [List.find?_isSome]
      exact ⟨st, hmem2, by simp [hmem.1]⟩
    obtain ⟨st2, hfind2⟩ := Option.isSome_iff_exists.mp hexists
    simp [student_profile_view, hfind, generate_student_profile, hfind2,
      canAccessStudent, hrole]

/-- C5 witness: the amended behaviour at a concrete store — the list route
403, an unknown id 404, and an existing student served the no-permission
page with status 200. -/
theorem c5_management_routes_witness :
    students_list_view { role := .management, anonymize_students := true }
      = { status := 403, body := .accessDeniedPage }
    ∧ student_profile_view [{ id := 1, academic_group_id := some 5 }]
        { role := .management, anonymize_students := true } 2 true
        = { status := 404, body := .notFoundPage }
    ∧ student_profile_view [{ id := 1, academic_group_id := some 5 }]
        { role := .management, anonymize_students := true } 1 true
        = { status := 200,
            body := .errorPage "No tiene permisos para ver este perfil" } :=
  ⟨(c5_management_routes [{ id := 1, academic_group_id := some 5 }]
      { role := .management, anonymize_students := true } 2 true rfl).1,
   (c5_management_routes [{ id := 1, academic_group_id := some 5 }]
      { role := .management, anonymize_students := true } 2 true rfl).2.1 (by decide),
   (c5_management_routes [{ id := 1, academic_group_id := some 5 }]
      { role := .management, anonymize_students := true } 1 true rfl).2.2
      { id := 1, academic_group_id := some 5 } (by decide)⟩

end AulaMetrics

namespace AulaMetrics

/-! ### Helper lemmas about Python split/join -/

lemma pySplitAux_wf (s : List Char) :
    ∀ cur, (∀ c ∈ cur, c.isWhitespace = false) →
      ∀ w ∈ pySplitAux s cur, w ≠ [] ∧ ∀ c ∈ w, c.isWhitespace = false := by
  induction s with
  | nil =>
    intro cur hcur w hw
    by_cases h : cur = []
    · simp [pySplitAux, h] at hw
    · simp only [pySplitAux, if_neg h, List.mem_singleton] at hw
      subst hw
      refine ⟨by simpa using h, fun c hc => hcur c (by simpa using hc)⟩
  | cons c rest ih =>
    intro cur hcur w hw
    by_cases hws : c.isWhitespace
    · by_cases hc : cur = []
      · simp only [pySplitAux, if_pos hws, if_pos hc] at hw
        exact ih [] (by simp) w hw
      · simp only [pySplitAux, if_pos hws, if_neg hc, List.mem_cons] at hw
        rcases hw with rfl | hw
        · exact ⟨by simpa using hc, fun x hx => hcur x (by simpa using hx)⟩
        · exact ih [] (by simp) w hw
    · simp only [pySplitAux, if_neg hws] at hw
      refine ih (c :: cur) ?_ w hw
      intro x hx
      rcases List.mem_cons.mp hx with rfl | hx
      · simpa using hws
      · exact hcur x hx

lemma pySplit_wf (s : List Char) :
    ∀ w ∈ pySplit s, w ≠ [] ∧ ∀ c ∈ w, c.isWhitespace = false :=
  pySplitAux_wf s [] (by simp)

lemma pySplitAux_append_word (w : List Char) (hw : ∀ c ∈ w, c.isWhitespace = false) :
    ∀ (s cur : List Char), pySplitAux (w ++ s) cur = pySplitAux s (w.reverse ++ cur) := by
  induction w with
  | nil => intro s cur; simp
  | cons c w2 ih =>
    intro s cur
    have hc : c.isWhitespace = false := hw c (by simp)
    have hw2 : ∀ x ∈ w2, x.isWhitespace = false := fun x hx => hw x (by simp [hx])
    simp only [List.cons_append, pySplitAux, hc, Bool.false_eq_true, if_false]
    rw [show w2.append s = w2 ++ s from rfl, ih hw2 s (c :: cur)]
    simp [List.append_assoc]

lemma pySplitAux_ws_only (t : List Char) (ht : ∀ c ∈ t, c.isWhitespace = true) :
    ∀ cur, pySplitAux t cur = if cur = [] then [] else [cur.reverse] := by
  induction t with
  | nil => intro cur; rfl
  | cons c t2 ih =>
    intro cur
    have hc : c.isWhitespace = true := ht c (by simp)
    have ht2 : ∀ x ∈ t2, x.isWhitespace = true := fun x hx => ht x (by simp [hx])
    have h0 : pySplitAux t2 [] = [] := by simpa using ih ht2 []
    by_cases hcur : cur = [] <;> simp [pySplitAux, hc, hcur, h0]

lemma pySplitAux_append_ws (t : List Char) (ht : ∀ c ∈ t, c.isWhitespace = true) :
    ∀ (s cur : List Char), pySplitAux (s ++ t) cur = pySplitAux s cur := by
  intro s
  induction s with
  | nil =>
    intro cur
    rw [List.nil_append, pySplitAux_ws_only t ht cur]
    rfl
  | cons c s2 ih =>
    intro cur
    by_cases hc : c.isWhitespace <;> by_cases hcur : cur = [] <;>
      simp [pySplitAux, hc, hcur, ih]

lemma pySplit_dropLeading (s : List Char) :
    pySplit (s.dropWhile Char.isWhitespace) = pySplit s := by
  induction s with
  | nil => rfl
  | cons c s2 ih =>
    by_cases hc : c.isWhitespace
    · rw [List.dropWhile_cons_of_pos hc, ih]
      simp [pySplit, pySplitAux, hc]
    · rw [List.dropWhile_cons_of_neg (by simpa using hc)]

lemma pySplit_pyStrip (s : List Char) : pySplit (pyStrip s) = pySplit s := by
  have hdecomp :
      s.dropWhile Char.isWhitespace
        = pyStrip s
          ++ ((s.dropWhile Char.isWhitespace).reverse.takeWhile Char.isWhitespace).reverse := by
    conv_lhs => rw [← List.reverse_reverse (s.dropWhile Char.isWhitespace),
      ← List.takeWhile_append_dropWhile (p := Char.isWhitespace)
        (l := (s.dropWhile Char.isWhitespace).reverse)]
    rw [List.reverse_append]
    rfl
  have hws : ∀ c ∈ ((s.dropWhile Char.isWhitespace).reverse.takeWhile
      Char.isWhitespace).reverse, c.isWhitespace = true := by
    intro c hc
    rw [List.mem_reverse] at hc
    exact List.mem_takeWhile_imp hc
  calc pySplit (pyStrip s)
      = pySplit (pyStrip s
          ++ ((s.dropWhile Char.isWhitespace).reverse.takeWhile Char.isWhitespace).reverse) :=
        (pySplitAux_append_ws _ hws _ _).symm
    _ = pySplit (s.dropWhile Char.isWhitespace) := by rw [← hdecomp]
    _ = pySplit s := pySplit_dropLeading s

lemma pySplit_joinWords :
    ∀ (ws : List (List Char)),
      (∀ w ∈ ws, w ≠ [] ∧ ∀ c ∈ w, c.isWhitespace = false) →
      pySplit (joinWords ws) = ws := by
  intro ws
  induction ws with
  | nil => intro _; rfl
  | cons w rest ih =>
    intro h
    obtain ⟨hne, hnws⟩ := h w (by simp)
    cases rest with
    | nil =>
      have h2 := pySplitAux_append_word w hnws [] []
      rw [List.append_nil, List.append_nil] at h2
      simp only [joinWords, pySplit] at h2 ⊢
      rw [h2]
      simp [pySplitAux, hne]
    | cons w2 rest2 =>
      have h2 := pySplitAux_append_word w hnws (' ' :: joinWords (w2 :: rest2)) []
      rw [List.append_nil] at h2
      simp only [joinWords, pySplit] at h2 ⊢
      rw [h2]
      have hsp : (' ' : Char).isWhitespace = true := by decide
      have hcur : w.reverse ≠ [] := by simpa using hne
      simp only [pySplitAux, if_pos hsp, if_neg hcur, List.reverse_reverse]
      rw [show pySplitAux (joinWords (w2 :: rest2)) [] = pySplit (joinWords (w2 :: rest2)) from rfl,
        ih (fun x hx => h x (by simp [hx]))]

lemma joinWords_appendToLast (suffix : List Char) :
    ∀ (ws : List (List Char)), ws ≠ [] →
      joinWords ws ++ suffix = joinWords (appendToLast suffix ws) := by
  intro ws
  induction ws with
  | nil => intro h; exact absurd rfl h
  | cons w rest ih =>
    intro _
    cases rest with
    | nil => simp [joinWords, appendToLast]
    | cons w2 rest2 =>
      have ih2 := ih (by simp)
      cases h : appendToLast suffix (w2 :: rest2) with
      | nil => cases rest2 <;> simp [appendToLast] at h
      | cons y ys =>
        calc joinWords (w :: w2 :: rest2) ++ suffix
            = w ++ ' ' :: (joinWords (w2 :: rest2) ++ suffix) := by simp [joinWords]
          _ = w ++ ' ' :: joinWords (appendToLast suffix (w2 :: rest2)) := by rw [ih2]
          _ = w ++ ' ' :: joinWords (y :: ys) := by rw [h]
          _ = joinWords (w :: y :: ys) := rfl
          _ = joinWords (w :: appendToLast suffix (w2 :: rest2)) := by rw [← h]
          _ = joinWords (appendToLast suffix (w :: w2 :: rest2)) := rfl

lemma appendToLast_length (suffix : List Char) :
    ∀ (ws : List (List Char)), (appendToLast suffix ws).length = ws.length := by
  intro ws
  induction ws with
  | nil => rfl
  | cons w rest ih =>
    cases rest with
    | nil => rfl
    | cons w2 rest2 => simpa [appendToLast] using ih

lemma appendToLast_wf (suffix : List Char) (hs : ∀ c ∈ suffix, c.isWhitespace = false) :
    ∀ (ws : List (List Char)),
      (∀ w ∈ ws, w ≠ [] ∧ ∀ c ∈ w, c.isWhitespace = false) →
      ∀ w ∈ appendToLast suffix ws, w ≠ [] ∧ ∀ c ∈ w, c.isWhitespace = false := by
  intro ws
  induction ws with
  | nil => intro _ w hw; cases hw
  | cons w rest ih =>
    intro h v hv
    obtain ⟨hne, hnws⟩ := h w (by simp)
    cases rest with
    | nil =>
      simp only [appendToLast, List.mem_singleton] at hv
      subst hv
      refine ⟨by simp [hne], ?_⟩
      intro c hc
      rcases List.mem_append.mp hc with hc | hc
      · exact hnws c hc
      · exact hs c hc
    | cons w2 rest2 =>
      simp only [appendToLast, List.mem_cons] at hv
      rcases hv with rfl | hv
      · exact ⟨hne, hnws⟩
      · exact ih (fun x hx => h x (by simp [hx])) v hv

end AulaMetrics

namespace AulaMetrics

/-- C8: a free-text answer of 400 words is persisted as exactly the first
300 of its words, space-joined, with the ellipsis marker appended (directly
to the 300th word), and the word_count computed on the persisted text is
exactly 300 — the ellipsis does not add a token because it attaches to the
last word without a separating space. -/
theorem c8_truncation_to_300_words (raw : List Char)
    (h400 : (pySplit raw).length = 400) :
    savedQualitativeText raw
      = some (joinWords ((pySplit raw).take 300) ++ ellipsisChars)
    ∧ word_count (joinWords ((pySplit raw).take 300) ++ ellipsisChars) = 300 := by
  have hstrip : pySplit (pyStrip raw) = pySplit raw := pySplit_pyStrip raw
  have hlen : ((pySplit raw).take 300).length = 300 := by
    rw [List.length_take, h400]
    omega
  have hwf : ∀ w ∈ (pySplit raw).take 300, w ≠ [] ∧ ∀ c ∈ w, c.isWhitespace = false :=
    fun w hw => pySplit_wf raw w (List.take_subset 300 (pySplit raw) hw)
  have hne : (pySplit raw).take 300 ≠ [] := by
    intro h
    rw [h] at hlen
    simp at hlen
  have hdots : ∀ c ∈ ellipsisChars, c.isWhitespace = false := by decide
  constructor
  · simp only [savedQualitativeText]
    rw [hstrip, h400]
    have hnonempty : joinWords ((pySplit raw).take 300) ++ ellipsisChars ≠ [] := by
      simp [ellipsisChars]
    rw [if_pos (by norm_num : (400 : ℕ) > 300), if_neg hnonempty]
  · rw [word_count, joinWords_appendToLast ellipsisChars _ hne,
      pySplit_joinWords _ (appendToLast_wf ellipsisChars hdots _ hwf),
      appendToLast_length, hlen]

/-- C8 witness: the concrete 400-word answer made of 400 one-letter words. -/
theorem c8_truncation_witness :
    (pySplit (joinWords (List.replicate 400 ['a']))).length = 400
    ∧ savedQualitativeText (joinWords (List.replicate 400 ['a']))
        = some (joinWords ((pySplit (joinWords (List.replicate 400 ['a']))).take 300)
            ++ ellipsisChars)
    ∧ word_count (joinWords ((pySplit (joinWords (List.replicate 400 ['a']))).take 300)
        ++ ellipsisChars) = 300 := by
  have hwf : ∀ w ∈ List.replicate 400 (['a'] : List Char),
      w ≠ [] ∧ ∀ c ∈ w, c.isWhitespace = false := by
    intro w hw
    rw [List.eq_of_mem_replicate hw]
    exact ⟨by decide, by decide⟩
  have h400 : (pySplit (joinWords (List.replicate 400 ['a']))).length = 400 := by
    rw [pySplit_joinWords _ hwf, List.length_replicate]
  exact ⟨h400, (c8_truncation_to_300_words _ h400).1, (c8_truncation_to_300_words _ h400).2⟩

/-- C9: creating the keyword "triste" (non-system, non-variant) on an
empty registry auto-creates — among others — the variants "tristeza" and
"tristes" as rows marked is_variant and linked to the parent through
parent_keyword_id, and deleting the parent keyword succeeds and cascades
to all of its variant rows, leaving the registry empty. -/
theorem c9_triste_variants_and_cascade :
    (∃ r ∈ alertKeywordCreate [] "triste",
      r.keyword = "tristeza" ∧ r.is_variant = true ∧ r.parent_keyword_id = some 1)
    ∧ (∃ r ∈ alertKeywordCreate [] "triste",
      r.keyword = "tristes" ∧ r.is_variant = true ∧ r.parent_keyword_id = some 1)
    ∧ (∃ r ∈ alertKeywordCreate [] "triste",
      r.keyword = "triste" ∧ r.id = 1 ∧ r.is_variant = false ∧ r.is_system_default = false)
    ∧ alertKeywordUnlink (alertKeywordCreate [] "triste") 1 = .ok [] := by
  refine ⟨by decide, by decide, by decide, by rfl⟩

/-! ### Helper lemma for the course-level pattern -/

lemma takeWhile_dropWhile_all_append {p : Char → Bool} (ds rest : List Char)
    (h : ∀ c ∈ ds, p c = true) (c : Char) (hc : p c = false) :
    (ds ++ c :: rest).takeWhile p = ds ∧ (ds ++ c :: rest).dropWhile p = c :: rest := by
  induction ds with
  | nil => simp [List.takeWhile_cons, List.dropWhile_cons, hc]
  | cons d ds2 ih =>
    have hd : p d = true := h d (by simp)
    have ih2 := ih (fun x hx => h x (by simp [hx]))
    simp [List.takeWhile_cons, List.dropWhile_cons, hd, ih2.1, ih2.2]

/-- C10: the derived course_level is "<n>º ESO" for every group name
beginning with digits followed by the ordinal sign — whatever the group
really is, a Bachillerato group included — and the fixed string
"Curso no especificado" for every other group name. -/
theorem c10_course_level_pattern (name : String) (ds rest : List Char) :
    (name.data = ds ++ 'º' :: rest → ds ≠ [] → (∀ c ∈ ds, c.isDigit = true) →
      compute_course_level (some name) = some (String.mk ds ++ "º ESO"))
    ∧ (matchLeadingOrdinal name.data = none →
      compute_course_level (some name) = some "Curso no especificado") := by
  constructor
  · intro hdata hne hdigits
    have hm := takeWhile_dropWhile_all_append ds rest hdigits 'º' (by decide)
    simp [compute_course_level, matchLeadingOrdinal, hdata, hm.1, hm.2, hne]
  · intro hnone
    simp [compute_course_level, hnone]

/-- C10 witness: the Bachillerato quirk at a concrete group name — the
group "1º Bachillerato A" is reported as "1º ESO" — and a non-matching
name falls back to the fixed string. -/
theorem c10_course_level_witness :
    compute_course_level (some "1º Bachillerato A") = some "1º ESO"
    ∧ compute_course_level (some "Grupo B") = some "Curso no especificado" := by
  constructor
  · exact ((c10_course_level_pattern "1º Bachillerato A" ['1'] " Bachillerato A".data).1
      (by decide) (by decide) (by decide)).trans (by rfl)
  · exact (c10_course_level_pattern "Grupo B" [] []).2 (by decide)

end AulaMetrics
